import Mathlib

/-!
Verification of the ServiceTitanClient repository (Python) against its
natural-language specification.

The development shallowly embeds the relevant parts of the two client
modules (`src/client.py` and `src/servicetitan_api_client/client.py`,
near-duplicates that differ in response classification and the pagination
helpers) as executable Lean definitions, and proves or refutes the frozen
claims about them.

Modelling conventions:
- Python values that flow out of `response.json()` are modelled by the
  inductive `JVal` (JSON values).  JSON numbers are modelled as `Int`
  (the claims under study never depend on fractional values); Python's
  `bool` is a distinct constructor, but note that Python's
  `isinstance(x, (int, float))` accepts `bool` because `bool` is a
  subclass of `int` — `isNumericPy` reflects that faithfully.
- Python dicts are modelled as ordered association lists with
  insert-or-update assignment (`dinsert`) and first-match lookup
  (`dlookup`), matching dict insertion-order semantics; dict keys are
  unique, which appears as a `Nodup` hypothesis where it matters.
- Wall-clock time (`time.time()`) is an explicit `Int` parameter `now`.
- The HTTP transport is an oracle: a call either raises
  (`HttpResult.transportError`) or yields an `HttpResponse` record whose
  `json?` field is the result of attempting `response.json()` (`none`
  models a `ValueError` from the decoder), `text` is `response.text` and
  `content` is `response.content`.
- Raised exceptions are explicit return values; functions that can raise
  return an `Option exc × state` pair or an `Except`.
-/

/-- Result of `response.json()`: a JSON value as a Python object. -/
inductive JVal where
  | null
  | bool (b : Bool)
  | num (n : Int)
  | str (s : String)
  | arr (elems : List JVal)
  | obj (fields : List (String × JVal))

/-- Python truthiness (`bool(x)`) for the values a `JVal` can denote:
`None`, `False`, `0`, `""`, `[]` and `{}` are falsy. -/
def jTruthy : JVal → Bool
  | .null => false
  | .bool b => b
  | .num n => decide (n ≠ 0)
  | .str s => decide (s ≠ "")
  | .arr l => !l.isEmpty
  | .obj l => !l.isEmpty

/-- Python `dict.get(k)` over an association list: first (unique) match. -/
def dlookup {α : Type} : List (String × α) → String → Option α
  | [], _ => none
  | (k', v) :: rest, k => if k' == k then some v else dlookup rest k

/-- Python `d[k] = v`: update the value in place if `k` is present
(keeping its position and original key object), else append. -/
def dinsert {α : Type} : List (String × α) → String → α → List (String × α)
  | [], k, v => [(k, v)]
  | (k', v') :: rest, k, v =>
    if k' == k then (k', v) :: rest else (k', v') :: dinsert rest k v

/-- Truthiness of `dict.get(k)` (missing key gives `None`, which is falsy). -/
def jTruthyOpt : Option JVal → Bool
  | none => false
  | some v => jTruthy v

/-- State of a `ServiceTitanClient` instance: the immutable configuration
fields set by `__init__` plus the mutable token cache
(`self._access_token`, `self._token_expiry`). -/
structure STClient where
  client_id : String
  client_secret : String
  app_key : String
  tenant : Option String
  auth_url : String
  base_url : String
  access_token : Option JVal
  token_expiry : Int

/-- Credential-cache part of `__init__`: `self._access_token = None`,
`self._token_expiry = 0.0` (configuration fields stored as given). -/
def initClient (cid cs ak : String) (tenant : Option String)
    (authUrl baseUrl : String) : STClient :=
  ⟨cid, cs, ak, tenant, authUrl, baseUrl, none, 0⟩

/-- Best-effort error body extracted by the error paths: the decoded JSON
when `response.json()` succeeds, else the raw `response.text`. -/
inductive ErrBody where
  | structured (v : JVal)
  | raw (s : String)

/-- Distinguishable causes of `ServiceTitanAuthError`. -/
inductive AuthFailure where
  | connectError
  | httpError (status : Nat) (body : ErrBody)
  | missingAccessToken

/-- Exceptions that `_refresh_access_token` can propagate:
`ServiceTitanAuthError` on the three guarded failure paths, a bare JSON
decode error when a success response has a non-JSON body (the unguarded
`response.json()` call), and an attribute error when the success body
decodes to a non-dict (the unguarded `.get` call). -/
inductive RefreshExc where
  | authError (e : AuthFailure)
  | jsonDecodeError
  | attributeGetError

/-- Outcome of one HTTP exchange as observed by the client code. -/
structure HttpResponse where
  status : Nat
  contentTypeHeader : Option String
  text : String
  json : Option JVal
  content : List Nat

/-- Result of a transport call: the library raised, or a response arrived. -/
inductive HttpResult where
  | transportError
  | ok (r : HttpResponse)

/-- Error-body extraction shared by the two error paths:
`err_text = response.text`, overwritten by the decoded JSON if
`response.json()` succeeds. -/
def bestEffortBody (r : HttpResponse) : ErrBody :=
  match r.json with
  | some v => .structured v
  | none => .raw r.text

/-- Python `isinstance(x, (int, float))` on a decoded JSON value: true for
JSON numbers and also for JSON booleans, because Python's `bool` is a
subclass of `int`.  `none` models a missing key (`dict.get` gave `None`). -/
def isNumericPy : Option JVal → Bool
  | some (.num _) => true
  | some (.bool _) => true
  | _ => false

/-- Python `float(x)` on the values accepted by `isNumericPy`
(`float(True) = 1.0`, `float(False) = 0.0`). -/
def pyFloat : Option JVal → Int
  | some (.num n) => n
  | some (.bool b) => if b then 1 else 0
  | _ => 0

/-- Embedding of `ServiceTitanClient._refresh_access_token` (identical in
both module copies).  `now` is `time.time()` at the assignment point and
`res` the outcome of `requests.post(self.auth_url, ...)`.  Returns the
raised exception (if any) paired with the post-call client state; the two
cache assignments are the last statements of the source, so every raising
path leaves the state untouched. -/
def refreshAccessToken (c : STClient) (now : Int) (res : HttpResult) :
    Option RefreshExc × STClient :=
  match res with
  | .transportError => (some (.authError .connectError), c)
  | .ok r =>
    if r.status < 400 then
      match r.json with
      | none => (some .jsonDecodeError, c)
      | some tokenInfo =>
        match tokenInfo with
        | .obj fields =>
          let access_token := dlookup fields "access_token"
          if jTruthyOpt access_token then
            let expires_in := dlookup fields "expires_in"
            let ei : Int := if isNumericPy expires_in then pyFloat expires_in else 900
            (none, { c with access_token := access_token, token_expiry := now + ei })
          else
            (some (.authError .missingAccessToken), c)
        | _ => (some .attributeGetError, c)
    else
      (some (.authError (.httpError r.status (bestEffortBody r))), c)

/-- Observable outcome of `_get_access_token`: how many times the token
refresher was invoked, the exception raised (if any), the post-call client
state, and the returned token (`none` when an exception propagates). -/
structure TokenFetch where
  refreshCalls : Nat
  exc : Option RefreshExc
  state : STClient
  token : Option JVal

/-- Embedding of `ServiceTitanClient._get_access_token` (identical in both
module copies): refresh when `not self._access_token or
now >= self._token_expiry - 60`, else return the cached token unchanged.
`res` is the transport outcome the refresher would observe if invoked. -/
def getAccessToken (c : STClient) (now : Int) (res : HttpResult) : TokenFetch :=
  if !jTruthyOpt c.access_token || decide (c.token_expiry - 60 ≤ now) then
    match refreshAccessToken c now res with
    | (some e, c') => ⟨1, some e, c', none⟩
    | (none, c') => ⟨1, none, c', c'.access_token⟩
  else
    ⟨0, none, c, c.access_token⟩

/-! Helper lemmas about the access guard and the refresher. -/

/-- Cache hit: a truthy stored token that is not within 60 seconds of
expiry is returned unchanged with no refresh. -/
lemma getAccessToken_hit (c : STClient) (now : Int) (res : HttpResult)
    (h1 : jTruthyOpt c.access_token = true) (h2 : now < c.token_expiry - 60) :
    getAccessToken c now res = ⟨0, none, c, c.access_token⟩ := by
  have hle : ¬ (c.token_expiry - 60 ≤ now) := not_le.mpr h2
  simp [getAccessToken, h1, hle]

/-- Cache miss: the guard delegates to the refresher exactly once. -/
lemma getAccessToken_miss (c : STClient) (now : Int) (res : HttpResult)
    (h : jTruthyOpt c.access_token = false ∨ c.token_expiry - 60 ≤ now) :
    getAccessToken c now res =
      match refreshAccessToken c now res with
      | (some e, c') => ⟨1, some e, c', none⟩
      | (none, c') => ⟨1, none, c', c'.access_token⟩ := by
  rcases h with h | h
  · simp [getAccessToken, h]
  · simp [getAccessToken, h]

/-- Successful exchange: the refresher stores the token and the computed
expiry and raises nothing. -/
lemma refreshAccessToken_ok (c : STClient) (now : Int) (r : HttpResponse)
    (fields : List (String × JVal)) (tok : JVal)
    (h1 : r.status < 400) (h2 : r.json = some (.obj fields))
    (h3 : dlookup fields "access_token" = some tok) (h4 : jTruthy tok = true) :
    refreshAccessToken c now (.ok r) =
      (none, { c with
                access_token := some tok,
                token_expiry := now +
                  (if isNumericPy (dlookup fields "expires_in")
                   then pyFloat (dlookup fields "expires_in") else 900) }) := by
  simp [refreshAccessToken, h1, h2, h3, jTruthyOpt, h4]

/-- C1: the access guard returns the stored token unchanged with zero
refreshes when a (truthy) token is stored and `now < expiry - 60`; when no
token is stored or `now ≥ expiry - 60` it invokes the refresher exactly
once; consequently a freshly constructed client's first request refreshes
exactly once, and a second request made before the new expiry minus the
60-second margin refreshes zero further times and returns the same token. -/
theorem getAccessToken_lazy_refresh :
    (∀ (c : STClient) (now : Int) (res : HttpResult),
        jTruthyOpt c.access_token = true → now < c.token_expiry - 60 →
        getAccessToken c now res = ⟨0, none, c, c.access_token⟩)
    ∧ (∀ (c : STClient) (now : Int) (res : HttpResult),
        jTruthyOpt c.access_token = false ∨ c.token_expiry - 60 ≤ now →
        (getAccessToken c now res).refreshCalls = 1)
    ∧ (∀ (cid cs ak : String) (t : Option String) (au bu : String)
        (now : Int) (r : HttpResponse) (fields : List (String × JVal)) (tok : JVal)
        (now2 : Int) (res2 : HttpResult),
        r.status < 400 → r.json = some (.obj fields) →
        dlookup fields "access_token" = some tok → jTruthy tok = true →
        (getAccessToken (initClient cid cs ak t au bu) now (.ok r)).refreshCalls = 1
        ∧ (getAccessToken (initClient cid cs ak t au bu) now (.ok r)).exc = none
        ∧ (getAccessToken (initClient cid cs ak t au bu) now (.ok r)).token = some tok
        ∧ (now2 < (getAccessToken (initClient cid cs ak t au bu) now (.ok r)).state.token_expiry - 60 →
            getAccessToken
                (getAccessToken (initClient cid cs ak t au bu) now (.ok r)).state now2 res2 =
              ⟨0, none,
               (getAccessToken (initClient cid cs ak t au bu) now (.ok r)).state, some tok⟩)) := by
  refine ⟨fun c now res h1 h2 => getAccessToken_hit c now res h1 h2, ?_, ?_⟩
  · intro c now res h
    rw [getAccessToken_miss c now res h]
    rcases refreshAccessToken c now res with ⟨e, c'⟩
    cases e <;> rfl
  · intro cid cs ak t au bu now r fields tok now2 res2 h1 h2 h3 h4
    have hmiss : jTruthyOpt (initClient cid cs ak t au bu).access_token = false := rfl
    have hfirst :
        getAccessToken (initClient cid cs ak t au bu) now (.ok r) =
          ⟨1, none,
           { initClient cid cs ak t au bu with
              access_token := some tok,
              token_expiry := now +
                (if isNumericPy (dlookup fields "expires_in")
                 then pyFloat (dlookup fields "expires_in") else 900) }, some tok⟩ := by
      rw [getAccessToken_miss _ _ _ (Or.inl hmiss),
        refreshAccessToken_ok _ _ _ _ _ h1 h2 h3 h4]
    rw [hfirst]
    refine ⟨rfl, rfl, rfl, fun hlt => ?_⟩
    exact getAccessToken_hit _ now2 res2 (by simp [jTruthyOpt, h4]) hlt

/-- Witness for C1 at concrete inputs: a cached truthy token far from
expiry is returned with zero refreshes; a fresh client refreshes once on
its first request and zero times on a prompt second request. -/
theorem getAccessToken_lazy_refresh_witness :
    getAccessToken ⟨"i", "s", "k", none, "a", "b", some (.str "tok"), 1000⟩ 0 .transportError =
      ⟨0, none, ⟨"i", "s", "k", none, "a", "b", some (.str "tok"), 1000⟩, some (.str "tok")⟩
    ∧ (getAccessToken (initClient "i" "s" "k" none "a" "b") 0
        (.ok ⟨200, some "application/json", "",
          some (.obj [("access_token", .str "T"), ("expires_in", .num 900)]), []⟩)).refreshCalls = 1
    ∧ (getAccessToken (initClient "i" "s" "k" none "a" "b") 0
        (.ok ⟨200, some "application/json", "",
          some (.obj [("access_token", .str "T"), ("expires_in", .num 900)]), []⟩)).token
        = some (.str "T")
    ∧ getAccessToken
        (getAccessToken (initClient "i" "s" "k" none "a" "b") 0
          (.ok ⟨200, some "application/json", "",
            some (.obj [("access_token", .str "T"), ("expires_in", .num 900)]), []⟩)).state
        5 .transportError =
      ⟨0, none,
       (getAccessToken (initClient "i" "s" "k" none "a" "b") 0
         (.ok ⟨200, some "application/json", "",
           some (.obj [("access_token", .str "T"), ("expires_in", .num 900)]), []⟩)).state,
       some (.str "T")⟩ := by
  refine ⟨getAccessToken_lazy_refresh.1 _ 0 _ rfl (by decide), ?_⟩
  have h := getAccessToken_lazy_refresh.2.2 "i" "s" "k" none "a" "b" 0
    ⟨200, some "application/json", "",
      some (.obj [("access_token", .str "T"), ("expires_in", .num 900)]), []⟩
    [("access_token", .str "T"), ("expires_in", .num 900)] (.str "T")
    5 .transportError (by decide) rfl rfl rfl
  exact ⟨h.1, h.2.2.1, h.2.2.2 (by decide)⟩

/-- C2: on each of the three guarded failure outcomes — transport failure,
non-success HTTP status, or a success body missing the `access_token`
field — `_refresh_access_token` raises `ServiceTitanAuthError` and leaves
the stored credential (`_access_token`, `_token_expiry`) exactly as it
was: refresh either fully replaces the credential or leaves it unchanged. -/
theorem refreshAccessToken_failure_atomic :
    ∀ (c : STClient) (now : Int) (res : HttpResult),
      (res = .transportError
        ∨ (∃ r, res = .ok r ∧ 400 ≤ r.status)
        ∨ (∃ r fields, res = .ok r ∧ r.status < 400 ∧ r.json = some (.obj fields)
            ∧ dlookup fields "access_token" = none)) →
      (refreshAccessToken c now res).2 = c
      ∧ ∃ e, (refreshAccessToken c now res).1 = some (.authError e) := by
  intro c now res h
  rcases h with rfl | ⟨r, rfl, hs⟩ | ⟨r, fields, rfl, hs, hj, hd⟩
  · exact ⟨rfl, .connectError, rfl⟩
  · have hlt : ¬ (r.status < 400) := not_lt.mpr hs
    refine ⟨?_, .httpError r.status (bestEffortBody r), ?_⟩ <;>
      simp [refreshAccessToken, hlt]
  · refine ⟨?_, .missingAccessToken, ?_⟩ <;>
      simp [refreshAccessToken, hs, hj, hd, jTruthyOpt]

/-- Witness for C2 at concrete inputs: one instance of each of the three
failing outcomes against a client holding a stale credential. -/
theorem refreshAccessToken_failure_atomic_witness :
    ((refreshAccessToken ⟨"i", "s", "k", none, "a", "b", some (.str "old"), 7⟩ 0
        .transportError).2 = ⟨"i", "s", "k", none, "a", "b", some (.str "old"), 7⟩
      ∧ ∃ e, (refreshAccessToken ⟨"i", "s", "k", none, "a", "b", some (.str "old"), 7⟩ 0
        .transportError).1 = some (.authError e))
    ∧ ((refreshAccessToken ⟨"i", "s", "k", none, "a", "b", some (.str "old"), 7⟩ 0
        (.ok ⟨503, none, "busy", none, []⟩)).2
          = ⟨"i", "s", "k", none, "a", "b", some (.str "old"), 7⟩
      ∧ ∃ e, (refreshAccessToken ⟨"i", "s", "k", none, "a", "b", some (.str "old"), 7⟩ 0
        (.ok ⟨503, none, "busy", none, []⟩)).1 = some (.authError e))
    ∧ ((refreshAccessToken ⟨"i", "s", "k", none, "a", "b", some (.str "old"), 7⟩ 0
        (.ok ⟨200, none, "{}", some (.obj []), []⟩)).2
          = ⟨"i", "s", "k", none, "a", "b", some (.str "old"), 7⟩
      ∧ ∃ e, (refreshAccessToken ⟨"i", "s", "k", none, "a", "b", some (.str "old"), 7⟩ 0
        (.ok ⟨200, none, "{}", some (.obj []), []⟩)).1 = some (.authError e)) :=
  ⟨refreshAccessToken_failure_atomic _ 0 _ (Or.inl rfl),
   refreshAccessToken_failure_atomic _ 0 _
     (Or.inr (Or.inl ⟨⟨503, none, "busy", none, []⟩, rfl, by decide⟩)),
   refreshAccessToken_failure_atomic _ 0 _
     (Or.inr (Or.inr ⟨⟨200, none, "{}", some (.obj []), []⟩, [], rfl, by decide, rfl, rfl⟩))⟩

/-- Counterexample to C3 as stated: a successful exchange whose
`expires_in` is the JSON boolean `true` — a non-numeric JSON value, for
which the claim prescribes the 900-second default — is accepted by
Python's `isinstance(expires_in, (int, float))` because `bool` subclasses
`int`, so the stored expiry becomes `now + 1`, not `now + 900`. -/
theorem refreshAccessToken_expiresIn_bool_cex :
    (refreshAccessToken (initClient "id" "sec" "key" none "a" "b") 1000
      (.ok ⟨200, some "application/json", "",
        some (.obj [("access_token", .str "tok"), ("expires_in", .bool true)]), []⟩)).1 = none
    ∧ (refreshAccessToken (initClient "id" "sec" "key" none "a" "b") 1000
      (.ok ⟨200, some "application/json", "",
        some (.obj [("access_token", .str "tok"), ("expires_in", .bool true)]), []⟩)).2.token_expiry
      = 1001
    ∧ (1001 : Int) ≠ 1000 + 900 :=
  ⟨rfl, rfl, by decide⟩

/-- C3 as amended: on every successful token-exchange response,
`_refresh_access_token` stores the response's `access_token` and sets the
stored expiry to `now + expires_in` when the `expires_in` field is a JSON
number, to `now + 1`/`now + 0` when it is the JSON boolean `true`/`false`
(Python's `bool` passes the `isinstance(x, (int, float))` check), and to
`now + 900` when it is absent or of any other type. -/
theorem refreshAccessToken_success_stores :
    ∀ (c : STClient) (now : Int) (r : HttpResponse)
      (fields : List (String × JVal)) (tok : JVal),
      r.status < 400 → r.json = some (.obj fields) →
      dlookup fields "access_token" = some tok → jTruthy tok = true →
      (refreshAccessToken c now (.ok r)).1 = none
      ∧ (refreshAccessToken c now (.ok r)).2.access_token = some tok
      ∧ (∀ q : Int, dlookup fields "expires_in" = some (.num q) →
          (refreshAccessToken c now (.ok r)).2.token_expiry = now + q)
      ∧ (∀ b : Bool, dlookup fields "expires_in" = some (.bool b) →
          (refreshAccessToken c now (.ok r)).2.token_expiry = now + (if b then 1 else 0))
      ∧ (dlookup fields "expires_in" = none →
          (refreshAccessToken c now (.ok r)).2.token_expiry = now + 900)
      ∧ (∀ v : JVal, dlookup fields "expires_in" = some v → isNumericPy (some v) = false →
          (refreshAccessToken c now (.ok r)).2.token_expiry = now + 900) := by
  intro c now r fields tok h1 h2 h3 h4
  rw [refreshAccessToken_ok c now r fields tok h1 h2 h3 h4]
  refine ⟨rfl, rfl, ?_, ?_, ?_, ?_⟩
  · intro q hq; simp [hq, isNumericPy, pyFloat]
  · intro b hb; simp [hb, isNumericPy, pyFloat]
  · intro hn; simp [hn, isNumericPy]
  · intro v hv hnum; simp [hv, hnum]

/-- Witness for the amended C3 at concrete inputs: a numeric
`expires_in`, a boolean one, and an absent one. -/
theorem refreshAccessToken_success_stores_witness :
    (refreshAccessToken (initClient "i" "s" "k" none "a" "b") 10
      (.ok ⟨200, none, "", some (.obj [("access_token", .str "T"), ("expires_in", .num 300)]), []⟩)).2.token_expiry
      = 10 + 300
    ∧ (refreshAccessToken (initClient "i" "s" "k" none "a" "b") 10
      (.ok ⟨200, none, "", some (.obj [("access_token", .str "T"), ("expires_in", .bool true)]), []⟩)).2.token_expiry
      = 10 + 1
    ∧ (refreshAccessToken (initClient "i" "s" "k" none "a" "b") 10
      (.ok ⟨200, none, "", some (.obj [("access_token", .str "T")]), []⟩)).2.token_expiry
      = 10 + 900
    ∧ (refreshAccessToken (initClient "i" "s" "k" none "a" "b") 10
      (.ok ⟨200, none, "", some (.obj [("access_token", .str "T"), ("expires_in", .str "900")]), []⟩)).2.token_expiry
      = 10 + 900 :=
  ⟨(refreshAccessToken_success_stores (initClient "i" "s" "k" none "a" "b") 10
      ⟨200, none, "", some (.obj [("access_token", .str "T"), ("expires_in", .num 300)]), []⟩
      [("access_token", .str "T"), ("expires_in", .num 300)] (.str "T")
      (by decide) rfl rfl rfl).2.2.1 300 rfl,
   ((refreshAccessToken_success_stores (initClient "i" "s" "k" none "a" "b") 10
      ⟨200, none, "", some (.obj [("access_token", .str "T"), ("expires_in", .bool true)]), []⟩
      [("access_token", .str "T"), ("expires_in", .bool true)] (.str "T")
      (by decide) rfl rfl rfl).2.2.2.1 true rfl).trans (by decide),
   (refreshAccessToken_success_stores (initClient "i" "s" "k" none "a" "b") 10
      ⟨200, none, "", some (.obj [("access_token", .str "T")]), []⟩
      [("access_token", .str "T")] (.str "T")
      (by decide) rfl rfl rfl).2.2.2.2.1 rfl,
   (refreshAccessToken_success_stores (initClient "i" "s" "k" none "a" "b") 10
      ⟨200, none, "", some (.obj [("access_token", .str "T"), ("expires_in", .str "900")]), []⟩
      [("access_token", .str "T"), ("expires_in", .str "900")] (.str "T")
      (by decide) rfl rfl rfl).2.2.2.2.2 (.str "900") rfl rfl⟩

/-! URL preparation (`_prepare_url`, identical in both module copies). -/

/-- Python `s.startswith(pre)`. -/
def pyStartsWith (s pre : String) : Bool :=
  pre.data.isPrefixOf s.data

/-- Python `s.lstrip("/")`: drop every leading slash. -/
def lstripSlashes (s : String) : String :=
  String.mk (s.data.dropWhile (fun c => c == '/'))

/-- Python `s.rstrip("/")`: drop every trailing slash. -/
def rstripSlashes (s : String) : String :=
  String.mk ((s.data.reverse.dropWhile (fun c => c == '/')).reverse)

/-- Core of Python `s.replace(old, new, 1)`: replace the leftmost
occurrence of `pat` (an empty `pat` matches at position 0). -/
def listReplaceFirst (pat rep : List Char) : List Char → List Char
  | [] => if pat.isPrefixOf [] then rep else []
  | c :: rest =>
    if pat.isPrefixOf (c :: rest) then rep ++ (c :: rest).drop pat.length
    else c :: listReplaceFirst pat rep rest

/-- Python `s.replace(old, new, 1)`. -/
def pyReplaceOnce (s pat rep : String) : String :=
  String.mk (listReplaceFirst pat.data rep.data s.data)

/-- Truthiness of the optional `self.tenant` string (`if self.tenant`). -/
def tenantTruthy : Option String → Bool
  | none => false
  | some s => decide (s ≠ "")

/-- Embedding of `ServiceTitanClient._prepare_url` (identical in both
module copies): absolute URLs pass through verbatim; otherwise leading
slashes are stripped, the tenant is spliced after a leading `tenant/`
segment when configured, and the result is joined onto `base_url`. -/
def prepareUrl (tenant : Option String) (baseUrl path : String) : String :=
  if pyStartsWith path "http://" || pyStartsWith path "https://" then path
  else
    let clean0 := lstripSlashes path
    let clean1 :=
      if tenantTruthy tenant && pyStartsWith clean0 "tenant/" then
        pyReplaceOnce clean0 "tenant/" ("tenant/" ++ tenant.getD "" ++ "/")
      else clean0
    rstripSlashes baseUrl ++ "/" ++ clean1

/-- Every list is extended by itself on the left. -/
lemma isPrefixOf_append_self (pat rest : List Char) :
    pat.isPrefixOf (pat ++ rest) = true := by
  induction pat with
  | nil => cases rest <;> rfl
  | cons a as ih => simp [List.isPrefixOf, ih]

/-- Replacing the first occurrence of a leading pattern substitutes it. -/
lemma listReplaceFirst_leading (pat rep rest : List Char) :
    listReplaceFirst pat rep (pat ++ rest) = rep ++ rest := by
  cases pat with
  | nil =>
    cases rest with
    | nil => simp [listReplaceFirst]
    | cons c cs => simp [listReplaceFirst, List.isPrefixOf]
  | cons a as =>
    show listReplaceFirst (a :: as) rep (a :: (as ++ rest)) = rep ++ rest
    rw [listReplaceFirst]
    have hpre : (a :: as).isPrefixOf (a :: (as ++ rest)) = true :=
      isPrefixOf_append_self (a :: as) rest
    rw [hpre]
    simp

/-- C4: `_prepare_url` returns an absolute URL (recognized scheme
`http://` or `https://`) verbatim regardless of the configured tenant;
otherwise it strips leading slashes and, when a (truthy) tenant is
configured and the stripped path starts with the literal segment
`tenant/`, splices the tenant immediately after that segment before
joining onto the base URL; in all other relative cases the stripped path
is joined unchanged. -/
theorem prepareUrl_resolution :
    (∀ (tenant : Option String) (base path : String),
        (pyStartsWith path "http://" || pyStartsWith path "https://") = true →
        prepareUrl tenant base path = path)
    ∧ (∀ (t base path : String) (rest : List Char),
        t ≠ "" →
        (pyStartsWith path "http://" || pyStartsWith path "https://") = false →
        (lstripSlashes path).data = "tenant/".data ++ rest →
        prepareUrl (some t) base path =
          rstripSlashes base ++ "/" ++ ("tenant/" ++ t ++ "/" ++ String.mk rest))
    ∧ (∀ (tenant : Option String) (base path : String),
        (pyStartsWith path "http://" || pyStartsWith path "https://") = false →
        (tenantTruthy tenant && pyStartsWith (lstripSlashes path) "tenant/") = false →
        prepareUrl tenant base path = rstripSlashes base ++ "/" ++ lstripSlashes path) := by
  refine ⟨?_, ?_, ?_⟩
  · intro tenant base path habs
    simp [prepareUrl, habs]
  · intro t base path rest ht habs hdata
    have htt : tenantTruthy (some t) = true := by simp [tenantTruthy, ht]
    have hsw : pyStartsWith (lstripSlashes path) "tenant/" = true := by
      rw [pyStartsWith, hdata]; exact isPrefixOf_append_self _ _
    have hrepl :
        pyReplaceOnce (lstripSlashes path) "tenant/" ("tenant/" ++ t ++ "/") =
          "tenant/" ++ t ++ "/" ++ String.mk rest := by
      rw [pyReplaceOnce, hdata, listReplaceFirst_leading]
      show String.mk (("tenant/" ++ t ++ "/").data ++ rest) = _
      rcases t with ⟨td⟩
      rfl
    simp only [prepareUrl, habs, Bool.false_eq_true, if_false, htt, hsw,
      Bool.and_self, if_true, Option.getD_some]
    rw [hrepl]
  · intro tenant base path habs hcond
    simp [prepareUrl, habs, hcond]

/-- Witness for C4 at the spec's concrete inputs: tenant `123456` with
path `tenant/employees` resolves to `tenant/123456/employees` under the
base URL, and an absolute path passes through unchanged. -/
theorem prepareUrl_resolution_witness :
    prepareUrl (some "123456") "https://api-integration.servicetitan.io" "tenant/employees" =
      "https://api-integration.servicetitan.io/tenant/123456/employees"
    ∧ prepareUrl (some "123456") "https://api-integration.servicetitan.io" "https://x/y" =
      "https://x/y"
    ∧ prepareUrl none "https://api-integration.servicetitan.io" "/jpm/v2/jobs" =
      "https://api-integration.servicetitan.io/jpm/v2/jobs" :=
  ⟨(prepareUrl_resolution.2.1 "123456" "https://api-integration.servicetitan.io"
      "tenant/employees" "employees".data (by decide) (by decide) (by decide)).trans rfl,
   prepareUrl_resolution.1 (some "123456") "https://api-integration.servicetitan.io"
      "https://x/y" (by decide),
   (prepareUrl_resolution.2.2 none "https://api-integration.servicetitan.io"
      "/jpm/v2/jobs" (by decide) (by decide)).trans rfl⟩

/-! Request headers (`_request` header construction, identical in both
module copies). -/

/-- Python `s.lower()` (ASCII case folding suffices for header names). -/
def pyLower (s : String) : String :=
  String.mk (s.data.map Char.toLower)

/-- Membership test `key.lower() in {"authorization", "st-app-key"}`. -/
def criticalHeader (k : String) : Bool :=
  pyLower k == "authorization" || pyLower k == "st-app-key"

/-- One iteration of the caller-header merge loop: skip (`continue`) a
critical name, else `req_headers[key] = value`. -/
def mergeHeaderStep (acc : List (String × String)) (kv : String × String) :
    List (String × String) :=
  if criticalHeader kv.1 then acc else dinsert acc kv.1 kv.2

/-- Header construction of `ServiceTitanClient._request`: start from
`{"Authorization": f"Bearer {token}", "ST-App-Key": self.app_key}` and
merge the caller-supplied headers, dropping any whose lowercased name is
`authorization` or `st-app-key`. -/
def buildReqHeaders (token appKey : String) (caller : List (String × String)) :
    List (String × String) :=
  caller.foldl mergeHeaderStep
    [("Authorization", "Bearer " ++ token), ("ST-App-Key", appKey)]

/-- Inserting a key makes it the looked-up value. -/
lemma dlookup_dinsert_self {α : Type} (l : List (String × α)) (k : String) (v : α) :
    dlookup (dinsert l k v) k = some v := by
  induction l with
  | nil => simp [dinsert, dlookup]
  | cons hd rest ih =>
    rcases hd with ⟨k', v'⟩
    by_cases h : k' = k
    · subst h; simp [dinsert, dlookup]
    · simp [dinsert, dlookup, h, ih]

/-- Inserting one key leaves every other lookup unchanged. -/
lemma dlookup_dinsert_ne {α : Type} (l : List (String × α)) (k k2 : String) (v : α)
    (h : k ≠ k2) : dlookup (dinsert l k v) k2 = dlookup l k2 := by
  induction l with
  | nil => simp [dinsert, dlookup, h]
  | cons hd rest ih =>
    rcases hd with ⟨k', v'⟩
    by_cases h' : k' = k
    · subst h'; simp [dinsert, dlookup, h]
    · simp [dinsert, dlookup, h', ih]

/-- The merge loop never changes the value at a critical header name. -/
lemma mergeLoop_critical (c : String) (hc : criticalHeader c = true) :
    ∀ (caller : List (String × String)) (acc : List (String × String)),
      dlookup (caller.foldl mergeHeaderStep acc) c = dlookup acc c := by
  intro caller
  induction caller with
  | nil => intro acc; rfl
  | cons hd rest ih =>
    intro acc
    rcases hd with ⟨k, v⟩
    rw [List.foldl_cons, ih]
    unfold mergeHeaderStep
    by_cases hk : criticalHeader k = true
    · simp [hk]
    · have hkc : k ≠ c := fun he => hk (he ▸ hc)
      simp only [hk, Bool.false_eq_true, if_false]
      exact dlookup_dinsert_ne acc k c v hkc

/-- The merge loop leaves lookups of absent keys unchanged. -/
lemma mergeLoop_notMem (k : String) :
    ∀ (caller : List (String × String)) (acc : List (String × String)),
      k ∉ caller.map Prod.fst →
      dlookup (caller.foldl mergeHeaderStep acc) k = dlookup acc k := by
  intro caller
  induction caller with
  | nil => intro acc _; rfl
  | cons hd rest ih =>
    intro acc hmem
    rcases hd with ⟨k0, v0⟩
    simp only [List.map_cons, List.mem_cons, not_or] at hmem
    rw [List.foldl_cons, ih _ hmem.2]
    unfold mergeHeaderStep
    by_cases hk : criticalHeader k0 = true
    · simp [hk]
    · simp only [hk, Bool.false_eq_true, if_false]
      exact dlookup_dinsert_ne acc k0 k v0 (fun he => hmem.1 he.symm)

/-- A non-critical caller header ends up in the merged map (dict keys are
unique, hence the `Nodup` hypothesis on the caller's key list). -/
lemma mergeLoop_mem (k : String) (v : String) :
    ∀ (caller : List (String × String)) (acc : List (String × String)),
      (k, v) ∈ caller → criticalHeader k = false →
      (caller.map Prod.fst).Nodup →
      dlookup (caller.foldl mergeHeaderStep acc) k = some v := by
  intro caller
  induction caller with
  | nil => intro acc h; exact absurd h (List.not_mem_nil _)
  | cons hd rest ih =>
    intro acc hmem hcrit hnodup
    rcases hd with ⟨k0, v0⟩
    simp only [List.map_cons, List.nodup_cons] at hnodup
    rcases List.mem_cons.mp hmem with heq | htail
    · injection heq with hk hv
      subst hk
      subst hv
      rw [List.foldl_cons]
      have hstep : mergeHeaderStep acc (k, v) = dinsert acc k v := by
        simp [mergeHeaderStep, hcrit]
      rw [hstep, mergeLoop_notMem k rest _ hnodup.1]
      exact dlookup_dinsert_self acc k v
    · exact ih _ htail hcrit hnodup.2

/-- Dropping critical caller headers is the same as pre-filtering them. -/
lemma mergeLoop_filter :
    ∀ (caller : List (String × String)) (acc : List (String × String)),
      caller.foldl mergeHeaderStep acc =
        (caller.filter (fun kv => !criticalHeader kv.1)).foldl mergeHeaderStep acc := by
  intro caller
  induction caller with
  | nil => intro acc; rfl
  | cons hd rest ih =>
    intro acc
    by_cases hk : criticalHeader hd.1 = true
    · simp [List.filter_cons, hk, mergeHeaderStep, ih]
    · simp only [Bool.not_eq_true] at hk
      simp [List.filter_cons, hk, ih]

/-- C5: the outgoing headers always carry `Authorization: Bearer <token>`
and `ST-App-Key: <appKey>`; caller-supplied headers whose name
case-insensitively matches either are dropped (merging equals merging the
pre-filtered list), and every other caller-supplied header is merged in. -/
theorem requestHeaders_precedence :
    ∀ (token appKey : String) (caller : List (String × String)),
      dlookup (buildReqHeaders token appKey caller) "Authorization" =
        some ("Bearer " ++ token)
      ∧ dlookup (buildReqHeaders token appKey caller) "ST-App-Key" = some appKey
      ∧ buildReqHeaders token appKey caller =
          buildReqHeaders token appKey (caller.filter (fun kv => !criticalHeader kv.1))
      ∧ (∀ (k v : String), (k, v) ∈ caller → criticalHeader k = false →
          (caller.map Prod.fst).Nodup →
          dlookup (buildReqHeaders token appKey caller) k = some v) := by
  intro token appKey caller
  refine ⟨?_, ?_, ?_, ?_⟩
  · rw [buildReqHeaders, mergeLoop_critical "Authorization" (by decide)]
    rfl
  · rw [buildReqHeaders, mergeLoop_critical "ST-App-Key" (by decide)]
    rfl
  · exact mergeLoop_filter caller _
  · intro k v hmem hcrit hnodup
    exact mergeLoop_mem k v caller _ hmem hcrit hnodup

/-- Witness for C5 at concrete inputs: a caller-supplied `AUTHORIZATION`
header is dropped in favour of the bearer token, and an unrelated header
is merged in. -/
theorem requestHeaders_precedence_witness :
    dlookup (buildReqHeaders "tok" "AK" [("AUTHORIZATION", "evil"), ("x-trace", "1")])
      "Authorization" = some ("Bearer " ++ "tok")
    ∧ dlookup (buildReqHeaders "tok" "AK" [("AUTHORIZATION", "evil"), ("x-trace", "1")])
      "ST-App-Key" = some "AK"
    ∧ dlookup (buildReqHeaders "tok" "AK" [("AUTHORIZATION", "evil"), ("x-trace", "1")])
      "x-trace" = some "1" :=
  ⟨(requestHeaders_precedence "tok" "AK" [("AUTHORIZATION", "evil"), ("x-trace", "1")]).1,
   (requestHeaders_precedence "tok" "AK" [("AUTHORIZATION", "evil"), ("x-trace", "1")]).2.1,
   (requestHeaders_precedence "tok" "AK" [("AUTHORIZATION", "evil"), ("x-trace", "1")]).2.2.2
     "x-trace" "1" (by decide) (by decide) (by decide)⟩

/-! Response classification (the tail of `_request` in each module copy). -/

/-- Successful payload representations a dispatcher can return. -/
inductive RespPayload where
  | jsonVal (v : JVal)
  | textVal (s : String)
  | bytesVal (b : List Nat)

/-- Context carried by `ServiceTitanAPIError` for a failed request:
status code, target URL, and best-effort error body. -/
structure ReqError where
  status : Nat
  url : String
  body : ErrBody

/-- Content-type test `content_type.startswith("application/json")` where
`content_type = response.headers.get("Content-Type", "").lower()`. -/
def declaredJson (r : HttpResponse) : Bool :=
  pyStartsWith (pyLower (r.contentTypeHeader.getD "")) "application/json"

/-- Content-type test for `image/` or `application/octet-stream`. -/
def declaredBinary (r : HttpResponse) : Bool :=
  pyStartsWith (pyLower (r.contentTypeHeader.getD "")) "image/"
    || pyStartsWith (pyLower (r.contentTypeHeader.getD "")) "application/octet-stream"

/-- Response classification of `_request` in
`src/servicetitan_api_client/client.py` (lines 310-337): status ≥ 400
raises; otherwise the declared content type picks the representation —
JSON decodes with a text fallback, image/binary yields the raw bytes,
anything else yields the decoded text. -/
def classifyResponse (url : String) (r : HttpResponse) : Except ReqError RespPayload :=
  if 400 ≤ r.status then
    .error ⟨r.status, url, bestEffortBody r⟩
  else if declaredJson r then
    match r.json with
    | some v => .ok (.jsonVal v)
    | none => .ok (.textVal r.text)
  else if declaredBinary r then
    .ok (.bytesVal r.content)
  else
    .ok (.textVal r.text)

/-- Response classification of `_request` in the root `src/client.py`
(lines 297-313): status ≥ 400 raises; otherwise `response.json()` is
attempted unconditionally with a fallback to `response.text` — the
declared content type is never consulted and bytes are never returned. -/
def classifyResponseRoot (url : String) (r : HttpResponse) : Except ReqError RespPayload :=
  if 400 ≤ r.status then
    .error ⟨r.status, url, bestEffortBody r⟩
  else
    match r.json with
    | some v => .ok (.jsonVal v)
    | none => .ok (.textVal r.text)

/-- Counterexample to C6 as stated: the claim's classification covers
"every response received by the dispatcher", citing both module copies,
but the root-module dispatcher returns decoded text — not the raw byte
payload — for a 2xx response with an `image/png` content type. -/
theorem responseClassification_root_cex :
    classifyResponseRoot "u" ⟨200, some "image/png", "PNG", none, [137, 80]⟩ =
      .ok (.textVal "PNG")
    ∧ classifyResponseRoot "u" ⟨200, some "image/png", "PNG", none, [137, 80]⟩ ≠
      .ok (.bytesVal [137, 80]) := by
  refine ⟨rfl, fun h => ?_⟩
  rw [show classifyResponseRoot "u" ⟨200, some "image/png", "PNG", none, [137, 80]⟩ =
      .ok (.textVal "PNG") from rfl] at h
  exact RespPayload.noConfusion (Except.ok.inj h)

/-- C6 as amended: both dispatchers raise `RequestError` with status, URL
and best-effort body on status ≥ 400.  Below 400 the
`servicetitan_api_client` dispatcher classifies by declared content type
(JSON → structured with text fallback, image/binary → raw bytes, other →
text), while the root `src/client.py` dispatcher ignores the content type
and returns the JSON decode when the body parses, else the decoded text,
never raw bytes. -/
theorem responseClassification_amended :
    ∀ (url : String) (r : HttpResponse),
      (400 ≤ r.status →
        classifyResponse url r = .error ⟨r.status, url, bestEffortBody r⟩
        ∧ classifyResponseRoot url r = .error ⟨r.status, url, bestEffortBody r⟩)
      ∧ (r.status < 400 →
          (declaredJson r = true →
            (∀ v, r.json = some v → classifyResponse url r = .ok (.jsonVal v))
            ∧ (r.json = none → classifyResponse url r = .ok (.textVal r.text)))
          ∧ (declaredJson r = false → declaredBinary r = true →
              classifyResponse url r = .ok (.bytesVal r.content))
          ∧ (declaredJson r = false → declaredBinary r = false →
              classifyResponse url r = .ok (.textVal r.text))
          ∧ (∀ v, r.json = some v → classifyResponseRoot url r = .ok (.jsonVal v))
          ∧ (r.json = none → classifyResponseRoot url r = .ok (.textVal r.text))) := by
  intro url r
  constructor
  · intro hs
    constructor <;> simp [classifyResponse, classifyResponseRoot, hs]
  · intro hs
    have hns : ¬ (400 ≤ r.status) := not_le.mpr hs
    refine ⟨fun hj => ⟨fun v hv => ?_, fun hn => ?_⟩,
      fun hj hb => ?_, fun hj hb => ?_, fun v hv => ?_, fun hn => ?_⟩
    · simp [classifyResponse, hns, hj, hv]
    · simp [classifyResponse, hns, hj, hn]
    · simp [classifyResponse, hns, hj, hb]
    · simp [classifyResponse, hns, hj, hb]
    · simp [classifyResponseRoot, hns, hv]
    · simp [classifyResponseRoot, hns, hn]

/-- Witness for the amended C6 at concrete inputs, mirroring the spec's
examples: a 2xx JSON response decodes to the structured object, a 404
raises with status 404, a JSON-declared body that fails to parse falls
back to raw text, an image response yields bytes from the package
dispatcher but text from the root dispatcher. -/
theorem responseClassification_amended_witness :
    classifyResponse "u" ⟨200, some "application/json", "\x7b\x22a\x22:1\x7d",
      some (.obj [("a", .num 1)]), []⟩ = .ok (.jsonVal (.obj [("a", .num 1)]))
    ∧ classifyResponse "u" ⟨404, some "text/plain", "missing", none, []⟩ =
      .error ⟨404, "u", .raw "missing"⟩
    ∧ classifyResponse "u" ⟨200, some "application/json", "not json", none, []⟩ =
      .ok (.textVal "not json")
    ∧ classifyResponse "u" ⟨200, some "image/png", "PNG", none, [137, 80]⟩ =
      .ok (.bytesVal [137, 80])
    ∧ classifyResponseRoot "u" ⟨200, some "image/png", "PNG", none, [137, 80]⟩ =
      .ok (.textVal "PNG") :=
  ⟨((responseClassification_amended "u" ⟨200, some "application/json", "\x7b\x22a\x22:1\x7d",
        some (.obj [("a", .num 1)]), []⟩).2 (by decide)).1 (by decide)
      |>.1 (.obj [("a", .num 1)]) rfl,
   ((responseClassification_amended "u" ⟨404, some "text/plain", "missing", none, []⟩).1
      (by decide)).1,
   ((responseClassification_amended "u" ⟨200, some "application/json", "not json", none,
        []⟩).2 (by decide)).1 (by decide) |>.2 rfl,
   ((responseClassification_amended "u" ⟨200, some "image/png", "PNG", none,
        [137, 80]⟩).2 (by decide)).2.1 (by decide) (by decide),
   ((responseClassification_amended "u" ⟨200, some "image/png", "PNG", none,
        [137, 80]⟩).2 (by decide)).2.2.2.2 rfl⟩

/-! Pagination helper `get_all` (only in `src/servicetitan_api_client/client.py`). -/

/-- Exceptions the pagination/batching helpers can propagate (the model
artifact `fuelExhausted` marks that the iteration bound of the embedding
was reached; theorems always supply sufficient fuel). -/
inductive PyErr where
  | typeError
  | attributeError
  | dispatchFailure
  | fuelExhausted

/-- Python `output.extend(x)`: lists concatenate, strings iterate to
their characters, dicts iterate to their keys, anything else (including
`None`) raises `TypeError`. -/
def pyExtend (acc : List JVal) : JVal → Except PyErr (List JVal)
  | .arr l => .ok (acc ++ l)
  | .str s => .ok (acc ++ s.data.map (fun c => JVal.str (String.mk [c])))
  | .obj fields => .ok (acc ++ fields.map (fun kv => JVal.str kv.1))
  | _ => .error .typeError

/-- Python `resp.get("data") or []` on a dict response. -/
def dataVal (fields : List (String × JVal)) : JVal :=
  let d := (dlookup fields "data").getD .null
  if jTruthy d then d else .arr []

/-- Truthiness of `resp.get("hasMore")`. -/
def hasMoreTruthy (fields : List (String × JVal)) : Bool :=
  jTruthyOpt (dlookup fields "hasMore")

/-- Embedding of the `while True` loop of `ServiceTitanClient.get_all`.
`fetch` maps a page number to the outcome of `self.get` for that page
(`.error` models any raised exception, caught by the `except` arm).
Returns the pages requested in order, the final local `params` dict and
the accumulated output.  `fuel` bounds the number of iterations. -/
def getAllLoop (fetch : Nat → Except Unit JVal) :
    Nat → Nat → List (String × JVal) → List Nat → List JVal →
    Except PyErr (List Nat × List (String × JVal) × List JVal)
  | 0, _, _, _, _ => .error .fuelExhausted
  | fuel + 1, page, params, issued, acc =>
    let params' := dinsert params "page" (.num page)
    let issued' := issued ++ [page]
    match fetch page with
    | .error _ => .ok (issued', params', acc)
    | .ok resp =>
      match resp with
      | .obj fields =>
        match pyExtend acc (dataVal fields) with
        | .error e => .error e
        | .ok acc' =>
          if hasMoreTruthy fields then
            getAllLoop fetch fuel (page + 1) params' issued' acc'
          else
            .ok (issued', params', acc')
      | _ => .ok (issued', params', acc)

/-- Embedding of `ServiceTitanClient.get_all`: start at page 1 with the
caller's params dict (the pre-loop `params['page'] = page` assignment
coincides with the one at the top of the first iteration). -/
def getAll (fetch : Nat → Except Unit JVal) (fuel : Nat)
    (callerParams : List (String × JVal)) :
    Except PyErr (List Nat × List (String × JVal) × List JVal) :=
  getAllLoop fetch fuel 1 callerParams [] []

/-- Caller-visible params dict after `get_all` / `get_all_id_filter`
returns: an empty caller dict is falsy, so the helper rebinds a fresh
local dict (`params = {...}`) and the caller's object is untouched; a
non-empty dict is mutated in place and the caller sees the final local
state. -/
def callerParamsAfter (callerParams localFinal : List (String × JVal)) :
    List (String × JVal) :=
  if callerParams.isEmpty then callerParams else localFinal

/-- Data list of a page response (meaningful when `dataIsArr` holds). -/
def rowData (fields : List (String × JVal)) : List JVal :=
  match dataVal fields with
  | .arr l => l
  | _ => []

/-- Whether `resp.get("data") or []` is a Python list. -/
def dataIsArr (fields : List (String × JVal)) : Bool :=
  match dataVal fields with
  | .arr _ => true
  | _ => false

/-- Concatenated data of a script of page responses. -/
def rowsData (rows : List (List (String × JVal))) : List JVal :=
  (rows.map rowData).flatten

/-- Whether a decoded response is a Python dict. -/
def isObjVal : JVal → Bool
  | .obj _ => true
  | _ => false

/-- The `or []` value of a page whose data is a list is that list. -/
lemma dataVal_of_arr (fields : List (String × JVal)) (h : dataIsArr fields = true) :
    dataVal fields = .arr (rowData fields) := by
  unfold dataIsArr at h
  unfold rowData
  rcases hd : dataVal fields <;> simp_all

/-- Running the loop through a script of dict pages that all carry list
data and a truthy `hasMore` advances the page counter, the issued-page
log and the accumulator by the whole script. -/
lemma getAllLoop_script (fetch : Nat → Except Unit JVal) :
    ∀ (rows : List (List (String × JVal))) (fuel page : Nat)
      (params : List (String × JVal)) (issued : List Nat) (acc : List JVal),
      (∀ i (hi : i < rows.length),
        fetch (page + i) = .ok (.obj (rows.get ⟨i, hi⟩))
        ∧ dataIsArr (rows.get ⟨i, hi⟩) = true
        ∧ hasMoreTruthy (rows.get ⟨i, hi⟩) = true) →
      ∃ p', getAllLoop fetch (rows.length + fuel) page params issued acc =
        getAllLoop fetch fuel (page + rows.length) p'
          (issued ++ List.range' page rows.length) (acc ++ rowsData rows) := by
  intro rows
  induction rows with
  | nil =>
    intro fuel page params issued acc _
    exact ⟨params, by simp [rowsData]⟩
  | cons r rs ih =>
    intro fuel page params issued acc hrows
    have h0 := hrows 0 (by simp)
    simp only [List.get] at h0
    have hfetch : fetch page = .ok (.obj r) := by simpa using h0.1
    have hstep :
        getAllLoop fetch ((r :: rs).length + fuel) page params issued acc =
          getAllLoop fetch (rs.length + fuel) (page + 1)
            (dinsert params "page" (.num page)) (issued ++ [page]) (acc ++ rowData r) := by
      have hfuel : (r :: rs).length + fuel = (rs.length + fuel) + 1 := by
        rw [List.length_cons]; omega
      rw [hfuel]
      simp only [getAllLoop]
      rw [hfetch]
      simp [pyExtend, dataVal_of_arr r h0.2.1, h0.2.2]
    obtain ⟨p', hp'⟩ := ih fuel (page + 1) (dinsert params "page" (.num page))
      (issued ++ [page]) (acc ++ rowData r)
      (fun i hi => by
        have := hrows (i + 1) (by simpa using Nat.succ_lt_succ hi)
        simpa [Nat.add_assoc, Nat.add_comm 1 i] using this)
    refine ⟨p', ?_⟩
    rw [hstep, hp']
    have hpage : page + 1 + rs.length = page + (r :: rs).length := by
      simp [Nat.add_assoc, Nat.add_comm 1 rs.length]
    have hissued : (issued ++ [page]) ++ List.range' (page + 1) rs.length =
        issued ++ List.range' page (r :: rs).length := by
      rw [List.append_assoc, List.length_cons, List.range'_succ]
      rfl
    have hacc : (acc ++ rowData r) ++ rowsData rs = acc ++ rowsData (r :: rs) := by
      rw [List.append_assoc]
      rfl
    rw [hpage, hissued, hacc]

/-- C7: `get_all` issues GETs with page parameter 1, 2, 3, ... and returns
the in-order concatenation of each page's `data` array; it continues
exactly while the (dict) response has a truthy `hasMore` and stops — with
the data accumulated so far, returned without error — on the first page
whose dispatch fails, whose response is not a dict, or whose `hasMore` is
falsy (the last page's data is still accumulated). -/
theorem getAll_pagination :
    ∀ (fetch : Nat → Except Unit JVal) (rows : List (List (String × JVal)))
      (cp : List (String × JVal)),
      (∀ i (hi : i < rows.length),
        fetch (1 + i) = .ok (.obj (rows.get ⟨i, hi⟩))
        ∧ dataIsArr (rows.get ⟨i, hi⟩) = true
        ∧ hasMoreTruthy (rows.get ⟨i, hi⟩) = true) →
      ((fetch (1 + rows.length) = .error () →
          ∃ p, getAll fetch (rows.length + 1) cp =
            .ok (List.range' 1 (rows.length + 1), p, rowsData rows))
      ∧ (∀ v, fetch (1 + rows.length) = .ok v → isObjVal v = false →
          ∃ p, getAll fetch (rows.length + 1) cp =
            .ok (List.range' 1 (rows.length + 1), p, rowsData rows))
      ∧ (∀ f, fetch (1 + rows.length) = .ok (.obj f) → dataIsArr f = true →
          hasMoreTruthy f = false →
          ∃ p, getAll fetch (rows.length + 1) cp =
            .ok (List.range' 1 (rows.length + 1), p, rowsData rows ++ rowData f))) := by
  intro fetch rows cp hrows
  obtain ⟨p', hp'⟩ := getAllLoop_script fetch rows 1 1 cp [] [] hrows
  simp only [List.nil_append] at hp'
  refine ⟨?_, ?_, ?_⟩
  · intro hterm
    refine ⟨dinsert p' "page" (.num (1 + rows.length)), ?_⟩
    rw [getAll, hp']
    simp only [getAllLoop]
    rw [hterm]
    simp [List.range'_1_concat]
  · intro v hterm hobj
    refine ⟨dinsert p' "page" (.num (1 + rows.length)), ?_⟩
    rw [getAll, hp']
    simp only [getAllLoop]
    rw [hterm]
    cases v <;> simp_all [isObjVal, List.range'_1_concat]
  · intro f hterm hdata hmore
    refine ⟨dinsert p' "page" (.num (1 + rows.length)), ?_⟩
    rw [getAll, hp']
    simp only [getAllLoop]
    rw [hterm]
    simp [pyExtend, dataVal_of_arr f hdata, hmore, List.range'_1_concat]

/-- Witness for C7 at the spec's concrete scenario: three pages, the
first two with `hasMore: true` and the last with `hasMore: false`, yield
pages 1, 2, 3 and the concatenation of the three `data` arrays. -/
theorem getAll_pagination_witness :
    ∃ p, getAll
      (fun n =>
        if n = 1 then .ok (.obj [("data", .arr [.num 1, .num 2]), ("hasMore", .bool true)])
        else if n = 2 then .ok (.obj [("data", .arr [.num 3]), ("hasMore", .bool true)])
        else .ok (.obj [("data", .arr [.num 4]), ("hasMore", .bool false)]))
      3 [] = .ok ([1, 2, 3], p, [.num 1, .num 2, .num 3, .num 4]) := by
  obtain ⟨p, hp⟩ := (getAll_pagination
    (fun n =>
      if n = 1 then .ok (.obj [("data", .arr [.num 1, .num 2]), ("hasMore", .bool true)])
      else if n = 2 then .ok (.obj [("data", .arr [.num 3]), ("hasMore", .bool true)])
      else .ok (.obj [("data", .arr [.num 4]), ("hasMore", .bool false)]))
    [[("data", .arr [.num 1, .num 2]), ("hasMore", .bool true)],
     [("data", .arr [.num 3]), ("hasMore", .bool true)]] []
    (fun i hi => by
      match i with
      | 0 => exact ⟨rfl, rfl, rfl⟩
      | 1 => exact ⟨rfl, rfl, rfl⟩
      | n + 2 =>
        exact absurd hi (by simp only [List.length_cons, List.length_nil]; omega))).2.2
    [("data", .arr [.num 4]), ("hasMore", .bool false)] rfl rfl rfl
  exact ⟨p, hp⟩

/-! Batched ID-filter helper `get_all_id_filter` (only in
`src/servicetitan_api_client/client.py`). -/

/-- Python `",".join(ids)`. -/
def joinComma (l : List String) : String :=
  String.intercalate "," l

/-- Embedding of the chunk loops of `get_all_id_filter` (the
`id_len % 50 == 0` and remainder branches share this shape): for chunk
index `i`, slice `ids[50*i : 50*(i+1)]`, assign the comma-join to the
HARD-CODED key `'ids'` (not the caller's `id_filter_name`), dispatch, and
extend the accumulator with `resp.get("data")` (no `or []`, so a missing
`data` raises TypeError and a non-dict response raises AttributeError;
a dispatch failure propagates uncaught).  `fetch` maps the 1-based chunk
ordinal to the dispatch outcome; `reqs` logs `(key, value)` of the filter
parameter of each issued GET. -/
def idFilterLoop (fetch : Nat → Except Unit JVal) (ids : List String) :
    Nat → Nat → List (String × JVal) → List (String × String) → List JVal →
    Except PyErr (List (String × String) × List (String × JVal) × List JVal)
  | _, 0, params, reqs, acc => .ok (reqs, params, acc)
  | i, n + 1, params, reqs, acc =>
    let tmp := joinComma ((ids.drop (50 * i)).take 50)
    let params' := dinsert params "ids" (.str tmp)
    let reqs' := reqs ++ [("ids", tmp)]
    match fetch (i + 1) with
    | .error _ => .error .dispatchFailure
    | .ok (.obj fields) =>
      match pyExtend acc ((dlookup fields "data").getD .null) with
      | .error e => .error e
      | .ok acc' => idFilterLoop fetch ids (i + 1) n params' reqs' acc'
    | .ok _ => .error .attributeError

/-- Embedding of `ServiceTitanClient.get_all_id_filter`: fewer than 50
ids make a single request under the caller's `id_filter_name` and return
`resp.get("data") or []`; otherwise the ids are chunked 50 at a time
(`id_len // 50` chunks when the length is an exact multiple, else
`id_len // 50 + 1`) through `idFilterLoop`.  The `if not params:
params = {}` rebinding is value-transparent (an empty dict equals a fresh
one); its aliasing consequence is captured by `callerParamsAfter`. -/
def getAllIdFilter (fetch : Nat → Except Unit JVal) (ids : List String)
    (idFilterName : String) (callerParams : List (String × JVal)) :
    Except PyErr (List (String × String) × List (String × JVal) × JVal) :=
  let params := callerParams
  if ids.length < 50 then
    let tmp := joinComma ids
    let params' := dinsert params idFilterName (.str tmp)
    match fetch 1 with
    | .error _ => .error .dispatchFailure
    | .ok (.obj fields) => .ok ([(idFilterName, tmp)], params', dataVal fields)
    | .ok _ => .error .attributeError
  else if ids.length % 50 == 0 then
    match idFilterLoop fetch ids 0 (ids.length / 50) params [] [] with
    | .error e => .error e
    | .ok (reqs, p', acc) => .ok (reqs, p', .arr acc)
  else
    match idFilterLoop fetch ids 0 (ids.length / 50 + 1) params [] [] with
    | .error e => .error e
    | .ok (reqs, p', acc) => .ok (reqs, p', .arr acc)

/-- C8 evaluated at the failing input: with 50 identifiers and the
caller-supplied filter name `externalIds`, the single issued GET carries
the filter under the hard-coded key `ids`, not under `externalIds` as the
claim (and the function's own `id_filter_name` parameter) prescribes. -/
theorem getAllIdFilter_hardcoded_ids_key :
    getAllIdFilter (fun _ => .ok (.obj [("data", .arr [])]))
      (List.replicate 50 "7") "externalIds" [] =
      .ok ([("ids", joinComma (List.replicate 50 "7"))],
        [("ids", .str (joinComma (List.replicate 50 "7")))], .arr [])
    ∧ ("ids" : String) ≠ "externalIds" :=
  ⟨rfl, by decide⟩

/-- C10: with an empty identifier list, `get_all_id_filter` does not
short-circuit: `0 < 50` takes the single-request branch, the filter
parameter is the empty join `""`, exactly one GET is issued, and the
returned value is the response's `data` list (the empty list when `data`
is absent). -/
theorem getAllIdFilter_empty_ids :
    ∀ (fetch : Nat → Except Unit JVal) (name : String) (cp : List (String × JVal))
      (fields : List (String × JVal)),
      fetch 1 = .ok (.obj fields) →
      getAllIdFilter fetch [] name cp =
        .ok ([(name, "")], dinsert cp name (.str ""), dataVal fields)
      ∧ (dlookup fields "data" = none → dataVal fields = .arr [])
      ∧ (∀ l, dlookup fields "data" = some (.arr l) → dataVal fields = .arr l) := by
  intro fetch name cp fields hf
  refine ⟨?_, ?_, ?_⟩
  · simp [getAllIdFilter, hf, joinComma]
    exact ⟨rfl, rfl⟩
  · intro h
    simp [dataVal, h, jTruthy]
  · intro l h
    cases l <;> simp [dataVal, h, jTruthy]

/-- Witness for C10 at concrete inputs: an empty id list issues one GET
with an empty `ids` filter and returns the page's data array. -/
theorem getAllIdFilter_empty_ids_witness :
    getAllIdFilter (fun _ => .ok (.obj [("data", .arr [.num 5])])) [] "ids" [] =
      .ok ([("ids", "")], [("ids", .str "")], .arr [.num 5])
    ∧ getAllIdFilter (fun _ => .ok (.obj [("other", .null)])) [] "ids" [] =
      .ok ([("ids", "")], [("ids", .str "")], .arr []) :=
  ⟨((getAllIdFilter_empty_ids (fun _ => .ok (.obj [("data", .arr [.num 5])])) "ids" []
      [("data", .arr [.num 5])] rfl).1).trans rfl,
   ((getAllIdFilter_empty_ids (fun _ => .ok (.obj [("other", .null)])) "ids" []
      [("other", .null)] rfl).1).trans rfl⟩

/-- Counterexample to C9 as stated: an empty caller-supplied params
dictionary is falsy, so `get_all` takes the `params = {'page': page}`
branch, rebinding a fresh local dict; the caller's dictionary is left
unchanged and contains no `page` key after the call. -/
theorem getAll_empty_params_cex :
    ∃ reqs pOut out,
      getAll (fun _ => .ok (.obj [("data", .arr []), ("hasMore", .bool false)])) 2 [] =
        .ok (reqs, pOut, out)
      ∧ callerParamsAfter [] pOut = []
      ∧ dlookup ([] : List (String × JVal)) "page" = none :=
  ⟨[1], [("page", .num 1)], [], rfl, rfl, rfl⟩

/-- One-step unfolding of the `get_all` loop. -/
lemma getAllLoop_succ_eq (fetch : Nat → Except Unit JVal) (fuel page : Nat)
    (params : List (String × JVal)) (issued : List Nat) (acc : List JVal) :
    getAllLoop fetch (fuel + 1) page params issued acc =
      (match fetch page with
       | .error _ => .ok (issued ++ [page], dinsert params "page" (.num page), acc)
       | .ok resp =>
         match resp with
         | .obj fields =>
           match pyExtend acc (dataVal fields) with
           | .error e => .error e
           | .ok acc' =>
             if hasMoreTruthy fields then
               getAllLoop fetch fuel (page + 1) (dinsert params "page" (.num page))
                 (issued ++ [page]) acc'
             else
               .ok (issued ++ [page], dinsert params "page" (.num page), acc')
         | _ => .ok (issued ++ [page], dinsert params "page" (.num page), acc)) := rfl

/-- A loop run of `get_all` that returns normally leaves the local params
dict holding `page` = the last page requested. -/
lemma getAllLoop_last_page (fetch : Nat → Except Unit JVal) :
    ∀ (fuel page : Nat) (params : List (String × JVal)) (issued : List Nat)
      (acc : List JVal) (reqs : List Nat) (pOut : List (String × JVal)) (out : List JVal),
      getAllLoop fetch fuel page params issued acc = .ok (reqs, pOut, out) →
      ∃ last, reqs.getLast? = some last ∧ dlookup pOut "page" = some (.num last) := by
  intro fuel
  induction fuel with
  | zero =>
    intro page params issued acc reqs pOut out h
    simp [getAllLoop] at h
  | succ fuel ih =>
    intro page params issued acc reqs pOut out h
    rw [getAllLoop_succ_eq] at h
    split at h
    all_goals try split at h
    all_goals try split at h
    all_goals try split at h
    all_goals
      first
      | exact Except.noConfusion h
      | exact ih _ _ _ _ _ _ _ h
      | (injection h with h1
         injection h1 with ha h2
         injection h2 with hb hc
         subst ha
         subst hb
         exact ⟨page, List.getLast?_concat _, dlookup_dinsert_self _ _ _⟩)

/-- One-step unfolding of the `get_all_id_filter` chunk loop. -/
lemma idFilterLoop_succ_eq (fetch : Nat → Except Unit JVal) (ids : List String)
    (i n : Nat) (params : List (String × JVal)) (reqs : List (String × String))
    (acc : List JVal) :
    idFilterLoop fetch ids i (n + 1) params reqs acc =
      (match fetch (i + 1) with
       | .error _ => .error .dispatchFailure
       | .ok (.obj fields) =>
         match pyExtend acc ((dlookup fields "data").getD .null) with
         | .error e => .error e
         | .ok acc' =>
           idFilterLoop fetch ids (i + 1) n
             (dinsert params "ids" (.str (joinComma ((ids.drop (50 * i)).take 50))))
             (reqs ++ [("ids", joinComma ((ids.drop (50 * i)).take 50))]) acc'
       | .ok _ => .error .attributeError) := rfl

/-- A chunk-loop run of `get_all_id_filter` that returns normally leaves
the local params dict holding `'ids'` = the comma-join of the last chunk. -/
lemma idFilterLoop_last_chunk (fetch : Nat → Except Unit JVal) (ids : List String) :
    ∀ (n i : Nat) (params : List (String × JVal)) (reqs : List (String × String))
      (acc : List JVal) (reqsOut : List (String × String)) (pOut : List (String × JVal))
      (accOut : List JVal),
      idFilterLoop fetch ids i (n + 1) params reqs acc = .ok (reqsOut, pOut, accOut) →
      dlookup pOut "ids" =
        some (.str (joinComma ((ids.drop (50 * (i + n))).take 50))) := by
  intro n
  induction n with
  | zero =>
    intro i params reqs acc reqsOut pOut accOut h
    rw [idFilterLoop_succ_eq] at h
    split at h
    · exact Except.noConfusion h
    · split at h
      · exact Except.noConfusion h
      · rw [show ∀ p q a, idFilterLoop fetch ids (i + 1) 0 p q a = .ok (q, p, a)
            from fun p q a => rfl] at h
        injection h with h1
        injection h1 with ha h2
        injection h2 with hb hc
        subst hb
        simpa using dlookup_dinsert_self params "ids"
          (JVal.str (joinComma ((ids.drop (50 * i)).take 50)))
    · exact Except.noConfusion h
  | succ n ih =>
    intro i params reqs acc reqsOut pOut accOut h
    rw [idFilterLoop_succ_eq] at h
    split at h
    · exact Except.noConfusion h
    · split at h
      · exact Except.noConfusion h
      · have hrec := ih (i + 1) _ _ _ _ _ _ h
        rwa [show i + 1 + n = i + (n + 1) from by omega] at hrec
    · exact Except.noConfusion h

/-- Number of chunk requests of `get_all_id_filter` for 50 or more ids:
`id_len // 50` on an exact multiple, `id_len // 50 + 1` otherwise. -/
def numChunks (ids : List String) : Nat :=
  if ids.length % 50 == 0 then ids.length / 50 else ids.length / 50 + 1

/-- Caller dicts that are non-empty see the helper's final local state. -/
lemma callerParamsAfter_ne (cp l : List (String × JVal)) (h : cp ≠ []) :
    callerParamsAfter cp l = l := by
  cases cp with
  | nil => exact absurd rfl h
  | cons a t => simp [callerParamsAfter]

/-- C9 as amended: every NON-EMPTY caller-supplied params dictionary is
mutated in place — after `get_all` returns normally the caller's dict is
the final local dict and holds `page` = the last page requested; after
`get_all_id_filter` returns normally it holds the filter key actually
used (the caller's `id_filter_name` for fewer than 50 ids, the hard-coded
`'ids'` otherwise) = the comma-join of the last chunk.  An empty caller
dict is falsy and is rebound to a fresh dict, hence left unchanged. -/
theorem paramsMutation_amended :
    (∀ (cp : List (String × JVal)) (fetch : Nat → Except Unit JVal) (fuel : Nat)
        (reqs : List Nat) (pOut : List (String × JVal)) (out : List JVal),
        cp ≠ [] →
        getAll fetch fuel cp = .ok (reqs, pOut, out) →
        callerParamsAfter cp pOut = pOut
        ∧ ∃ last, reqs.getLast? = some last ∧ dlookup pOut "page" = some (.num last))
    ∧ (∀ (cp : List (String × JVal)) (fetch : Nat → Except Unit JVal) (ids : List String)
        (name : String) (reqs : List (String × String)) (pOut : List (String × JVal))
        (out : JVal),
        cp ≠ [] →
        getAllIdFilter fetch ids name cp = .ok (reqs, pOut, out) →
        callerParamsAfter cp pOut = pOut
        ∧ (ids.length < 50 → dlookup pOut name = some (.str (joinComma ids)))
        ∧ (50 ≤ ids.length →
            dlookup pOut "ids" =
              some (.str (joinComma ((ids.drop (50 * (numChunks ids - 1))).take 50))))) := by
  constructor
  · intro cp fetch fuel reqs pOut out hcp h
    exact ⟨callerParamsAfter_ne cp pOut hcp,
      getAllLoop_last_page fetch fuel 1 cp [] [] reqs pOut out h⟩
  · intro cp fetch ids name reqs pOut out hcp h
    refine ⟨callerParamsAfter_ne cp pOut hcp, ?_, ?_⟩
    · intro hlen
      simp only [getAllIdFilter] at h
      rw [if_pos hlen] at h
      rcases hf : fetch 1 with u | resp <;> rw [hf] at h
      · exact Except.noConfusion h
      · rcases resp with _ | b | m | s | elems | fields
        · exact Except.noConfusion h
        · exact Except.noConfusion h
        · exact Except.noConfusion h
        · exact Except.noConfusion h
        · exact Except.noConfusion h
        · injection h with h1
          injection h1 with ha h2
          injection h2 with hb hc
          subst hb
          exact dlookup_dinsert_self cp name (.str (joinComma ids))
    · intro hlen
      have hnl : ¬ (ids.length < 50) := by omega
      simp only [getAllIdFilter] at h
      rw [if_neg hnl] at h
      by_cases hm : (ids.length % 50 == 0) = true
      · rw [if_pos hm] at h
        rcases hl : idFilterLoop fetch ids 0 (ids.length / 50) cp [] []
          with e | ⟨r3, p3, a3⟩ <;> rw [hl] at h
        · exact Except.noConfusion h
        · have hdiv : 1 ≤ ids.length / 50 := by omega
          rw [show ids.length / 50 = (ids.length / 50 - 1) + 1 from by omega] at hl
          have hres := idFilterLoop_last_chunk fetch ids (ids.length / 50 - 1) 0
            cp [] [] r3 p3 a3 hl
          injection h with h1
          injection h1 with ha h2
          injection h2 with hb hc
          subst hb
          have hnum : numChunks ids - 1 = ids.length / 50 - 1 := by
            simp [numChunks, hm]
          rw [hnum]
          simpa using hres
      · rw [if_neg hm] at h
        rcases hl : idFilterLoop fetch ids 0 (ids.length / 50 + 1) cp [] []
          with e | ⟨r3, p3, a3⟩ <;> rw [hl] at h
        · exact Except.noConfusion h
        · have hres := idFilterLoop_last_chunk fetch ids (ids.length / 50) 0
            cp [] [] r3 p3 a3 hl
          injection h with h1
          injection h1 with ha h2
          injection h2 with hb hc
          subst hb
          have hnum : numChunks ids - 1 = ids.length / 50 := by
            simp [numChunks, hm]
          rw [hnum]
          simpa using hres

/-- Witness for the amended C9 at concrete inputs: a one-entry caller
dict is mutated by `get_all` (gaining `page` = 1 after a single page) and
by `get_all_id_filter` (gaining the filter key for 2 ids, and the
hard-coded `ids` key for 50 ids). -/
theorem paramsMutation_amended_witness :
    (callerParamsAfter [("x", JVal.null)] [("x", JVal.null), ("page", JVal.num 1)] =
        [("x", JVal.null), ("page", JVal.num 1)]
      ∧ ∃ last, ([1] : List Nat).getLast? = some last
          ∧ dlookup [("x", JVal.null), ("page", JVal.num 1)] "page" = some (.num last))
    ∧ dlookup [("x", JVal.null), ("nums", JVal.str "a,b")] "nums" =
        some (.str (joinComma ["a", "b"]))
    ∧ dlookup [("x", JVal.null),
        ("ids", JVal.str (joinComma (List.replicate 50 "7")))] "ids" =
        some (.str (joinComma ((List.replicate 50 "7").drop
          (50 * (numChunks (List.replicate 50 "7") - 1)) |>.take 50))) :=
  ⟨paramsMutation_amended.1 [("x", JVal.null)]
      (fun _ => .ok (.obj [("data", .arr []), ("hasMore", .bool false)])) 2
      [1] [("x", JVal.null), ("page", JVal.num 1)] [] (by simp) rfl,
   (paramsMutation_amended.2 [("x", JVal.null)]
      (fun _ => .ok (.obj [("data", .arr [])])) ["a", "b"] "nums"
      [("nums", "a,b")] [("x", JVal.null), ("nums", JVal.str "a,b")] (.arr [])
      (by simp) rfl).2.1 (by decide),
   (paramsMutation_amended.2 [("x", JVal.null)]
      (fun _ => .ok (.obj [("data", .arr [])])) (List.replicate 50 "7") "externalIds"
      [("ids", joinComma (List.replicate 50 "7"))]
      [("x", JVal.null), ("ids", JVal.str (joinComma (List.replicate 50 "7")))] (.arr [])
      (by simp) rfl).2.2 (by simp)⟩
